import Mathlib

/-
  Verification of the MyRiona posting bot against its specification.

  Shallow embedding conventions:
  * Pure TypeScript functions become Lean functions over the same data.
  * Stateful / asynchronous code is modelled by passing the outcomes of the
    external calls (database, generation APIs, Instagram publication, weather
    HTTP fetch) explicitly as parameters: each call site reads the next
    outcome from an environment record or an outcome stream.
  * `Math.random()`-derived draws are passed in as explicit arguments
    (a rational draw for the weighted walk, a natural index for the
    uniform fallback and for reference-image picks).
  * Thrown JavaScript errors become `Except String` values carrying the
    error message; `error.message || 'Unknown error'` becomes `msgOr`.
-/

namespace MyRiona

/-! ## Weather classifier (src/services/weatherService.ts) -/

/-- Sky vocabulary produced by `mapConditionToSky`:
    sonnig = clear, teilweise bewölkt = partly-cloudy, bewölkt = cloudy,
    neblig = foggy, regnerisch = rainy. -/
inductive Sky
  | sonnig
  | teilweiseBewoelkt
  | bewoelkt
  | neblig
  | regnerisch
deriving DecidableEq, Repr

/-- Wind vocabulary produced by `mapWindSpeed`:
    schwach = weak, maessig = moderate, stark = strong. -/
inductive Wind
  | schwach
  | maessig
  | stark
deriving DecidableEq, Repr

/-- The binary weather verdict. -/
inductive Condition
  | good
  | bad
deriving DecidableEq, Repr

/-- `determineCondition` from weatherService.ts lines 135-180: the ordered
    if-cascade classifying a weather observation.  The temperature argument is
    the value `Math.round(data.current.temp_c)`, hence an integer. -/
def determineCondition (temp : Int) (sky : Sky) (wind : Wind)
    (precipitation : Bool) : Condition :=
  if precipitation then .bad
  else if wind = .stark then .bad
  else if temp < 18 then .bad
  else if 22 ≤ temp ∧ sky = .sonnig then .good
  else if 20 ≤ temp ∧ (sky = .bewoelkt ∨ sky = .teilweiseBewoelkt) then .good
  else if 18 ≤ temp ∧ temp < 22 ∧ sky = .sonnig then .good
  else .bad

/-- A weather-classifier input quadruple. -/
structure WxInput where
  temp : Int
  sky : Sky
  wind : Wind
  precipitation : Bool
deriving DecidableEq, Repr

/-- First-match-wins evaluation of an ordered rule list (the shape the
    specification describes for the weather decision table). -/
def firstMatch (rules : List ((WxInput → Bool) × Condition)) (i : WxInput)
    (dflt : Condition) : Condition :=
  match rules with
  | [] => dflt
  | (g, c) :: rest => if g i then c else firstMatch rest i dflt

/-- The specification's seven ordered rules (spec section 4.1), written
    from the spec's words, to be compared against `determineCondition`. -/
def specWeatherRules : List ((WxInput → Bool) × Condition) :=
  [ (fun i => i.precipitation, .bad),
    (fun i => i.wind == .stark, .bad),
    (fun i => decide (i.temp < 18), .bad),
    (fun i => decide (22 ≤ i.temp) && (i.sky == .sonnig), .good),
    (fun i => decide (20 ≤ i.temp) &&
        (i.sky == .bewoelkt || i.sky == .teilweiseBewoelkt), .good),
    (fun i => decide (18 ≤ i.temp) && decide (i.temp < 22) &&
        (i.sky == .sonnig), .good) ]

/-- The spec-level classifier: ordered rules, first match wins, default bad. -/
def specCondition (i : WxInput) : Condition :=
  firstMatch specWeatherRules i .bad

/-! ## Theme selection (src/services/themeService.ts) -/

/-- A reference-image field of the theme configuration: absent, a single
    file name, or a list of file names (`string | string[] | undefined`). -/
inductive RefArg
  | noRef
  | one (file : String)
  | many (files : List String)
deriving DecidableEq, Repr

/-- The image block of a theme (config/themes.ts `ImageConfig`, together with
    the weather-conditioned fields the orchestrator reads on it). -/
structure ImageConfig where
  prompt : String
  details : Option String
  usePostingText : Bool
  referenceImage : RefArg
  prompt_good_weather : Option String
  prompt_bad_weather : Option String
  referenceImage_good_weather : RefArg
  referenceImage_bad_weather : RefArg
deriving DecidableEq, Repr

/-- A content theme (config/themes.ts `Theme`, together with the
    weather-conditioned prompt-file fields the orchestrator reads on it). -/
structure Theme where
  id : String
  name : String
  enabled : Bool
  weight : ℚ
  promptFile : Option String
  promptFile_good_weather : Option String
  promptFile_bad_weather : Option String
  image : Option ImageConfig
deriving DecidableEq, Repr

/-- Sum of the weights of a theme list (`reduce((sum, t) => sum + t.weight, 0)`). -/
def totalWeight (themes : List Theme) : ℚ :=
  (themes.map Theme.weight).sum

/-- The weighted walk of `selectRandomTheme`: subtract each weight from the
    running remainder in order and return the first theme at which the
    remainder is ≤ 0 (`random -= theme.weight; if (random <= 0) return theme`). -/
def walkThemes : List Theme → ℚ → Option Theme
  | [], _ => none
  | t :: rest, r =>
    let r' := r - t.weight
    if r' ≤ 0 then some t else walkThemes rest r'

/-- Index-level version of the weighted walk, used to state which position
    of the list the walk stops at. -/
def walkIdx : List ℚ → ℚ → Option Nat
  | [], _ => none
  | w :: ws, r =>
    let r' := r - w
    if r' ≤ 0 then some 0 else (walkIdx ws r').map (· + 1)

/-- `selectRandomTheme` from themeService.ts lines 12-46.  `r` is the drawn
    value `Math.random() * totalWeight` of the weighted branch and `idx` is
    the drawn index `Math.floor(Math.random() * length)` of the equal
    probability branch (randomness made explicit). -/
def selectRandomTheme (enabledThemes : List Theme) (r : ℚ) (idx : Nat) :
    Except String Theme :=
  match enabledThemes with
  | [] => .error "No enabled themes available"
  | t0 :: rest =>
    if totalWeight (t0 :: rest) = 0 then
      .ok ((t0 :: rest).getD idx t0)
    else
      match walkThemes (t0 :: rest) r with
      | some t => .ok t
      | none => .ok t0

/-- A concrete enabled theme with weight 0 (theme "A" of the spec's
    weighted-selection example). -/
def themeA : Theme :=
  { id := "A", name := "A", enabled := true, weight := 0,
    promptFile := some "a.txt", promptFile_good_weather := none,
    promptFile_bad_weather := none, image := none }

/-- A concrete enabled theme with weight 10 (theme "B" of the spec's
    weighted-selection example). -/
def themeB : Theme :=
  { id := "B", name := "B", enabled := true, weight := 10,
    promptFile := some "b.txt", promptFile_good_weather := none,
    promptFile_bad_weather := none, image := none }

/-! ## Shared helpers for the JavaScript error model -/

/-- `error.message || 'Unknown error'`: the empty string is falsy. -/
def msgOr (m : String) : String :=
  if m = "" then "Unknown error" else m

/-- Contiguous-sublist test on character lists. -/
def hasSubstrAux (pat : List Char) : List Char → Bool
  | [] => pat.isEmpty
  | c :: rest => pat.isPrefixOf (c :: rest) || hasSubstrAux pat rest

/-- Substring test, modelling JavaScript `String.includes`. -/
def hasSubstr (s pat : String) : Bool :=
  hasSubstrAux pat.toList s.toList

/-- `postText || 'Generation failed'`: the empty string is falsy. -/
def textOr (t : Option String) (dflt : String) : String :=
  match t with
  | some s => if s = "" then dflt else s
  | none => dflt

/-! ## Post and ErrorLog records (src/models) -/

/-- The `status` field of a Post document. -/
inductive PostStatus
  | success
  | failed
deriving DecidableEq, Repr

/-- A persisted Post document (src/models/Post.ts), restricted to the fields
    the verified claims concern; `id` stands for the Mongo `_id`. -/
structure PostRecord where
  id : String
  theme : String
  themeId : String
  postText : String
  imagePrompt : String
  imageUrl : Option String
  status : PostStatus
  errorMessage : Option String
deriving DecidableEq, Repr

/-- An ErrorLog row as written by `logError` of the image generation service:
    the message, the attempt number recorded in the context, and the prompt
    truncated to 200 characters recorded in the context. -/
structure ErrorLogEntry where
  errorMessage : String
  attemptNumber : Nat
  prompt : String
deriving DecidableEq, Repr

/-! ## Image synthesis retry (src/services/imageGenerationService.ts,
    retry version, lines 331-388) -/

/-- Image bytes are opaque to the retry logic. -/
abbrev Img := Nat

/-- `MAX_RETRIES = 3` (total attempts). -/
def MAX_RETRIES : Nat := 3

/-- The retry loop body of `generateImage`: iterate over the remaining
    attempt numbers; a successful attempt returns its bytes, a failed attempt
    appends an ErrorLog entry (message `error.message || 'Unknown error'`,
    the attempt number, `prompt.substring(0, 200)`) and, on the last attempt,
    raises the final error embedding the last underlying message.  `res n`
    is the outcome of the n-th underlying generation attempt. -/
def generateImageGo (prompt : String) (res : Nat → Except String Img) :
    List Nat → List ErrorLogEntry → Except String Img × List ErrorLogEntry
  | [], logs => (.error "Image generation failed", logs)
  | attempt :: restAttempts, logs =>
    match res attempt with
    | .ok img => (.ok img, logs)
    | .error e =>
      let logs' := logs ++ [⟨msgOr e, attempt, prompt.take 200⟩]
      if attempt = MAX_RETRIES then
        (.error ("Image generation failed after " ++ toString MAX_RETRIES ++
          " attempts: " ++ e), logs')
      else
        generateImageGo prompt res restAttempts logs'

/-- `generateImage` with retry: attempts 1 .. MAX_RETRIES.  (Credential
    rotation on a 429 and the capped exponential backoff happen between
    attempts in the source; neither changes the returned value or the logged
    entries, so they are not part of the observable state here.) -/
def generateImage (prompt : String) (res : Nat → Except String Img) :
    Except String Img × List ErrorLogEntry :=
  generateImageGo prompt res (List.range' 1 MAX_RETRIES) []

/-! ## Post generation (PostGenerationService, src/unnamed/part_000) -/

/-- `rotateApiKey`: advance the shared key index circularly
    (`(index + 1) % geminiApiKeys.length`). -/
def rotateApiKey (nKeys k : Nat) : Nat :=
  (k + 1) % nKeys

/-- The structured result of the similarity analysis. -/
structure SimilarityCheck where
  avoidPhrases : List String
  avoidEmojiPatterns : List String
  avoidStructures : List String
  recommendation : String
deriving DecidableEq, Repr

/-- The locally synthesized result for an empty history. -/
def emptyHistorySim : SimilarityCheck :=
  ⟨[], [], [], "Keine vorherigen Posts gefunden. Sei kreativ!"⟩

/-- The locally synthesized degraded result when the analysis fails. -/
def analysisFailedSim : SimilarityCheck :=
  ⟨[], [], [], "Fehler bei der Analyse. Sei vorsichtig mit Wiederholungen."⟩

/-- The parsed result of the caption-generation call. -/
structure PostTextData where
  postText : String
  hashtags : List String
  tone : String
deriving DecidableEq, Repr

/-- Outcome of a self-recursive retry-on-429 routine, observed after at most
    `fuel` upstream responses: a value returned after `calls` upstream calls,
    an error thrown after `calls` calls, or still recursing having consumed
    all `fuel` responses (the source recursion carries no bound of its own). -/
inductive RetryOutcome (α : Type)
  | done (val : α) (calls : Nat)
  | thrown (msg : String) (calls : Nat)
  | retrying (calls : Nat)
deriving DecidableEq, Repr

/-- The try/catch tail of `generatePostText`: call the model; on a message
    containing '429' rotate the key and re-invoke itself (same request); on
    any other error re-throw; `resp i` is the outcome of the i-th upstream
    call (the request is the same every time). -/
def generatePostTextGo (resp : Nat → Except String PostTextData) (nKeys : Nat) :
    Nat → Nat → Nat → RetryOutcome PostTextData
  | 0, i, _ => .retrying i
  | fuel + 1, i, k =>
    match resp i with
    | .ok d => .done d (i + 1)
    | .error e =>
      if hasSubstr e "429" then
        generatePostTextGo resp nKeys fuel (i + 1) (rotateApiKey nKeys k)
      else
        .thrown e (i + 1)

/-- `generatePostText` starting at call 0 with key index k. -/
def generatePostText (resp : Nat → Except String PostTextData)
    (nKeys fuel k : Nat) : RetryOutcome PostTextData :=
  generatePostTextGo resp nKeys fuel 0 k

/-- The try/catch tail of `checkSimilarity`: like `generatePostTextGo`, but a
    non-429 error degrades to the empty-constraints result instead of being
    re-thrown. -/
def checkSimilarityGo (resp : Nat → Except String SimilarityCheck) (nKeys : Nat) :
    Nat → Nat → Nat → RetryOutcome SimilarityCheck
  | 0, i, _ => .retrying i
  | fuel + 1, i, k =>
    match resp i with
    | .ok d => .done d (i + 1)
    | .error e =>
      if hasSubstr e "429" then
        checkSimilarityGo resp nKeys fuel (i + 1) (rotateApiKey nKeys k)
      else
        .done analysisFailedSim (i + 1)

/-- `checkSimilarity`: an empty history short-circuits to the local
    "be creative" result without any upstream call; otherwise the analysis
    call runs with the retry-on-429 behaviour of `checkSimilarityGo`. -/
def checkSimilarity (lastPosts : List String)
    (resp : Nat → Except String SimilarityCheck) (nKeys fuel k : Nat) :
    RetryOutcome SimilarityCheck :=
  if lastPosts.length = 0 then .done emptyHistorySim 0
  else checkSimilarityGo resp nKeys fuel 0 k

/-- `getLastPosts`: query the Post collection and map to the caption texts;
    a thrown database error is caught and an empty list returned.  `dbFind`
    is the outcome of the `Post.find(...)` query (already sorted, limited and
    filtered by the store). -/
def getLastPosts (dbFind : Except String (List PostRecord)) : List String :=
  match dbFind with
  | .ok posts => posts.map PostRecord.postText
  | .error _ => []

/-! ## Weather fetch (src/services/weatherService.ts, getCurrentWeather) -/

/-- The raw fields read from the WeatherAPI.com response. -/
structure RawWeather where
  temp_c : ℚ
  conditionText : String
  conditionCode : Int
  wind_kph : ℚ
  precip_mm : ℚ
deriving DecidableEq, Repr

/-- Outcome of one axios fetch of the weather endpoint: a parsed body, or a
    thrown error with an optional HTTP status (`error.response?.status`). -/
inductive FetchOutcome
  | ok (raw : RawWeather)
  | fail (status : Option Nat) (message : String)
deriving DecidableEq, Repr

/-- The observation returned by `getCurrentWeather` (the `WeatherData`
    interface with the details bundle flattened). -/
structure WeatherData where
  condition : Condition
  temperature : Int
  description : String
  sky : Sky
  wind : Wind
  precipitation : Bool
deriving DecidableEq, Repr

/-- `mapConditionToSky`: static code table, then free-text fallback. -/
def mapConditionToSky (code : Int) (text : String) : Sky :=
  if code = 1000 then .sonnig
  else if code = 1003 then .teilweiseBewoelkt
  else if code ∈ [1006, 1009] then .bewoelkt
  else if code ∈ [1030, 1135, 1147] then .neblig
  else if code ∈ [1063, 1150, 1153, 1168, 1171, 1180, 1183, 1186, 1189,
      1192, 1195, 1198, 1201, 1240, 1243, 1246, 1273, 1276] then .regnerisch
  else if code ∈ [1066, 1069, 1072, 1114, 1117, 1204, 1207, 1210, 1213,
      1216, 1219, 1222, 1225, 1237, 1249, 1252, 1255, 1258, 1261, 1264,
      1279, 1282] then .regnerisch
  else if code ∈ [1087, 1273, 1276, 1279, 1282] then .regnerisch
  else
    let t := text.toLower
    if hasSubstr t "regen" || hasSubstr t "rain" then .regnerisch
    else if hasSubstr t "sonnig" || hasSubstr t "klar" ||
        hasSubstr t "sunny" then .sonnig
    else if hasSubstr t "bewölkt" || hasSubstr t "wolkig" ||
        hasSubstr t "cloudy" then .bewoelkt
    else if hasSubstr t "nebel" || hasSubstr t "fog" then .neblig
    else .bewoelkt

/-- `mapWindSpeed`: < 20 weak, < 30 moderate, otherwise strong. -/
def mapWindSpeed (windSpeedKmh : ℚ) : Wind :=
  if windSpeedKmh < 20 then .schwach
  else if windSpeedKmh < 30 then .maessig
  else .stark

/-- The observation built from a successful fetch body (`Math.round`
    rounds half away from zero upward, as `round` on ℚ does). -/
def observationOfRaw (raw : RawWeather) : WeatherData :=
  let temperature : Int := round raw.temp_c
  let sky := mapConditionToSky raw.conditionCode raw.conditionText
  let wind := mapWindSpeed raw.wind_kph
  let isRaining := decide (raw.precip_mm > 0)
  let precipitation := isRaining || (sky == .regnerisch)
  { condition := determineCondition temperature sky wind precipitation,
    temperature,
    description := raw.conditionText ++ " bei " ++ toString temperature ++ "°C",
    sky, wind, precipitation }

/-- `getCurrentWeather`: missing/empty API key throws before any fetch;
    otherwise exactly one fetch is performed (`fetch0`), whose failure is
    classified (401 → invalid key, anything else → wrapped generic message).
    The second component counts the fetch calls performed. -/
def getCurrentWeather (apiKey : Option String) (fetch0 : FetchOutcome) :
    Except String WeatherData × Nat :=
  if apiKey.getD "" = "" then
    (.error "WEATHERAPI_KEY not set in environment variables", 0)
  else
    match fetch0 with
    | .ok raw => (.ok (observationOfRaw raw), 1)
    | .fail status message =>
      if status = some 401 then
        (.error "Invalid WeatherAPI.com API key", 1)
      else
        (.error ("Failed to fetch weather data: " ++ message), 1)

/-! ## Posting orchestrator (src/services/postingOrchestrator.ts,
    weather-aware version, lines 15-253) -/

/-- First-occurrence literal replacement on character lists, modelling
    JavaScript `String.replace(stringPattern, replacement)`. -/
def replaceFirstAux (pat repl : List Char) : List Char → List Char
  | [] => []
  | c :: rest =>
    if pat.isPrefixOf (c :: rest) then repl ++ (c :: rest).drop pat.length
    else c :: replaceFirstAux pat repl rest

/-- First-occurrence literal replacement on strings. -/
def replaceFirst (s pat repl : String) : String :=
  if pat.isEmpty then repl ++ s
  else (replaceFirstAux pat.toList repl.toList s.toList).asString

/-- Word characters of the `\w` regex class. -/
def isWordChar (c : Char) : Bool :=
  c.isAlphanum || c = '_'

/-- Strip every `#\w+` token, modelling `postText.replace(/#\w+/g, '')`. -/
def stripHashtags : List Char → List Char
  | [] => []
  | c :: rest =>
    if c = '#' && !(rest.takeWhile isWordChar).isEmpty then
      stripHashtags (rest.dropWhile isWordChar)
    else
      c :: stripHashtags rest
termination_by l => l.length
decreasing_by
  · simp only [List.length_cons]
    have h := (List.dropWhile_sublist (l := rest) (p := isWordChar)).length_le
    omega
  · simp

/-- Drop characters of the emoji block U+1F300 – U+1F9FF, modelling
    `.replace(/[\u{1F300}-\u{1F9FF}]/gu, '')`. -/
def stripEmoji (l : List Char) : List Char :=
  l.filter (fun c => !(decide (0x1F300 ≤ c.toNat) && decide (c.toNat ≤ 0x1F9FF)))

/-- The cleaned caption excerpt appended into the image prompt: hashtags and
    emoji removed, trimmed, truncated to 200 characters. -/
def cleanPostText (postText : String) : String :=
  ((stripEmoji (stripHashtags postText.toList)).asString.trim).take 200

/-- `buildImagePrompt`: theme base prompt, plus the cleaned caption when
    `usePostingText` is set, plus the details line when present (non-empty:
    `if (imageConfig.details)` is a falsy check). -/
def buildImagePrompt (theme : Theme) (postText : String) : String :=
  match theme.image with
  | none => "Eine gemütliche Bar-Atmosphäre mit warmer Beleuchtung"
  | some imageConfig =>
    let prompt := imageConfig.prompt
    let prompt := if imageConfig.usePostingText then
        prompt ++ "\n\nKontext: " ++ cleanPostText postText
      else prompt
    match imageConfig.details with
    | some d => if d = "" then prompt else prompt ++ "\n\nDetails: " ++ d
    | none => prompt

/-- `getReferenceImage`: `theme.image?.referenceImage`. -/
def getReferenceImage (theme : Theme) : RefArg :=
  (theme.image.map ImageConfig.referenceImage).getD .noRef

/-- JavaScript falsiness of a `string | string[] | undefined` value:
    `undefined` and the empty string are falsy; an array — even an empty
    one — is truthy. -/
def RefArg.isFalsy : RefArg → Bool
  | .noRef => true
  | .one s => s = ""
  | .many _ => false

/-- Reference-image resolution inside the weather branch: a non-empty array
    yields one uniformly drawn element (`pick` is the drawn in-range index),
    anything else is passed through. -/
def pickWeatherRef (refs : RefArg) (pick : Nat) : RefArg :=
  match refs with
  | .many (f :: fs) => .one ((f :: fs).getD (pick % (f :: fs).length) f)
  | other => other

/-- The German condition word interpolated into the missing-prompt-file
    error (`${weatherData.condition}` prints the string field). -/
def condName : Condition → String
  | .good => "good"
  | .bad => "bad"

/-- The result object of `executePost` / `executePostWithFallback`. -/
structure ExecResult where
  success : Bool
  postId : Option String
  error : Option String
deriving DecidableEq, Repr

/-- The parsed output of `postGenerationService.generatePost`. -/
structure GeneratedPost where
  postText : String
  similarityCheck : String
deriving DecidableEq, Repr

/-- The transient state of one successful primary cycle, as held in the
    orchestrator's local variables when the success record is written. -/
structure CycleData where
  theme : Theme
  postText : String
  similarityCheck : String
  imagePrompt : String
  imagePath : String
deriving DecidableEq, Repr

/-- The environment of one posting cycle: the outcome of every external
    call the orchestrator makes, made explicit.  Functions receive the
    arguments the source passes, so the theorems can speak about which
    prompt / reference image a call was made with. -/
structure OrchestratorEnv where
  validate : Except String Bool
  selectTheme : Except String Theme
  weather : Except String WeatherData
  getThemeWithPrompt : String → Option String → Except String String
  generatePost : Theme → String → Except String GeneratedPost
  genImage : String → RefArg → Except String Img
  saveTemp : String → Except String String
  postIG : String → String → Except String Bool
  saveSuccessOk : Bool
  saveSuccessErr : String
  saveFailedOk : Bool
  refPick : Nat
  now : Nat
  successId : String
  failId : String
  backupPost : Except String String
  saveBackupOk : Bool
  saveBackupErr : String
  backupId : String

/-- The body of the `try` block of `executePost` up to (excluding) the
    success-record save: either the data of a fully successful cycle, or the
    thrown error message together with the values of the `selectedTheme` and
    `postText` local variables at the time of the throw (the catch block
    reads them). -/
def runMain (env : OrchestratorEnv) :
    Except (String × Option Theme × Option String) CycleData :=
  match env.validate with
  | .error e => .error (e, none, none)
  | .ok isValid =>
    if !isValid then .error ("Theme configuration validation failed", none, none)
    else
      match env.selectTheme with
      | .error e => .error (e, none, none)
      | .ok selectedTheme =>
        let branch : Except String (String × Option String × RefArg) :=
          if selectedTheme.id = "weather_post" then
            match env.weather with
            | .error we => .error ("Weather fetch failed: " ++ we)
            | .ok weatherData =>
              let promptFileName := if weatherData.condition = .good
                then selectedTheme.promptFile_good_weather
                else selectedTheme.promptFile_bad_weather
              match promptFileName with
              | none => .error ("Weather fetch failed: " ++
                  "No weather prompt file defined for condition: " ++
                  condName weatherData.condition)
              | some pf =>
                match env.getThemeWithPrompt selectedTheme.id (some pf) with
                | .error e => .error ("Weather fetch failed: " ++ e)
                | .ok promptText0 =>
                  let promptText := replaceFirst
                    (replaceFirst promptText0 "\x7b\x7bweatherDescription\x7d\x7d"
                      weatherData.description)
                    "\x7b\x7btemperature\x7d\x7d" (toString weatherData.temperature)
                  let wIp := if weatherData.condition = .good
                    then (selectedTheme.image.map ImageConfig.prompt_good_weather).getD none
                    else (selectedTheme.image.map ImageConfig.prompt_bad_weather).getD none
                  let refs := if weatherData.condition = .good
                    then (selectedTheme.image.map ImageConfig.referenceImage_good_weather).getD .noRef
                    else (selectedTheme.image.map ImageConfig.referenceImage_bad_weather).getD .noRef
                  .ok (promptText, wIp, pickWeatherRef refs env.refPick)
          else
            match env.getThemeWithPrompt selectedTheme.id none with
            | .error e => .error e
            | .ok promptText => .ok (promptText, none, .noRef)
        match branch with
        | .error e => .error (e, some selectedTheme, none)
        | .ok (promptText, wIp, wRef) =>
          match env.generatePost selectedTheme promptText with
          | .error e => .error (e, some selectedTheme, none)
          | .ok postData =>
            let postText := postData.postText
            let imagePrompt := match wIp with
              | some s => if s = "" then buildImagePrompt selectedTheme postText else s
              | none => buildImagePrompt selectedTheme postText
            let referenceImage := if wRef.isFalsy then getReferenceImage selectedTheme else wRef
            match env.genImage imagePrompt referenceImage with
            | .error e => .error (e, some selectedTheme, some postText)
            | .ok _img =>
              let filename := "post-" ++ selectedTheme.id ++ "-" ++ toString env.now ++ ".jpg"
              match env.saveTemp filename with
              | .error e => .error (e, some selectedTheme, some postText)
              | .ok imagePath =>
                match env.postIG imagePath postText with
                | .error e => .error (e, some selectedTheme, some postText)
                | .ok false =>
                  .error ("Instagram post upload returned false", some selectedTheme, some postText)
                | .ok true =>
                  .ok { theme := selectedTheme, postText,
                        similarityCheck := postData.similarityCheck,
                        imagePrompt, imagePath }

/-- The Post document written on the success path. -/
def successRecord (env : OrchestratorEnv) (d : CycleData) : PostRecord :=
  { id := env.successId, theme := d.theme.name, themeId := d.theme.id,
    postText := d.postText, imagePrompt := d.imagePrompt,
    imageUrl := some d.imagePath, status := .success, errorMessage := none }

/-- The catch block of `executePost`: build the failed Post document from
    the partial local state, save it best-effort (`saveFailedOk` tells
    whether that save succeeds; its failure is only logged), and return the
    `{success: false, error}` object. -/
def mkFailure (env : OrchestratorEnv) (sel : Option Theme)
    (ptext : Option String) (e : String) : ExecResult × List PostRecord :=
  let msg := msgOr e
  let failedPost : PostRecord :=
    { id := env.failId,
      theme := (sel.map Theme.name).getD "unknown",
      themeId := (sel.map Theme.id).getD "unknown",
      postText := textOr ptext "Generation failed",
      imagePrompt := "Generation failed",
      imageUrl := none, status := .failed, errorMessage := some msg }
  (⟨false, none, some msg⟩, if env.saveFailedOk then [failedPost] else [])

/-- `executePost`: run the main pipeline; on full success save the success
    record (a save failure is itself caught by the outer catch) and return
    the new id; on any thrown error run the catch block.  The second
    component is the list of Post documents persisted during the call. -/
def executePost (env : OrchestratorEnv) : ExecResult × List PostRecord :=
  match runMain env with
  | .ok d =>
    if env.saveSuccessOk then
      (⟨true, some env.successId, none⟩, [successRecord env d])
    else
      mkFailure env (some d.theme) (some d.postText) env.saveSuccessErr
  | .error (e, sel, ptext) => mkFailure env sel ptext e

/-- The fixed generic prompt of the backup image. -/
def backupImagePrompt : String :=
  "Eine gemütliche Bar-Atmosphäre mit warmer Beleuchtung, Dartscheibe und Drinks"

/-- The Post document written on a successful backup publication. -/
def backupRecord (env : OrchestratorEnv) (btext ipath : String) : PostRecord :=
  { id := env.backupId, theme := "Backup Post", themeId := "backup",
    postText := btext, imagePrompt := backupImagePrompt,
    imageUrl := some ipath, status := .success, errorMessage := none }

/-- `executePostWithFallback`: run `executePost`; if it failed, attempt the
    single backup path (random static caption, fixed generic image prompt,
    no reference image).  A thrown backup error yields the combined
    "Primary and backup posts failed" failure; a publish call that returns
    `false` without throwing falls through to returning the primary result. -/
def executePostWithFallback (env : OrchestratorEnv) :
    ExecResult × List PostRecord :=
  let res := executePost env
  if res.1.success then res
  else
    match env.backupPost with
    | .error e =>
      (⟨false, none, some ("Primary and backup posts failed: " ++ e)⟩, res.2)
    | .ok backupPostText =>
      match env.genImage backupImagePrompt .noRef with
      | .error e =>
        (⟨false, none, some ("Primary and backup posts failed: " ++ e)⟩, res.2)
      | .ok _img =>
        match env.saveTemp "backup-post.jpg" with
        | .error e =>
          (⟨false, none, some ("Primary and backup posts failed: " ++ e)⟩, res.2)
        | .ok imagePath =>
          match env.postIG imagePath backupPostText with
          | .error e =>
            (⟨false, none, some ("Primary and backup posts failed: " ++ e)⟩, res.2)
          | .ok false => res
          | .ok true =>
            if env.saveBackupOk then
              (⟨true, some env.backupId, none⟩,
                res.2 ++ [backupRecord env backupPostText imagePath])
            else
              (⟨false, none,
                  some ("Primary and backup posts failed: " ++ env.saveBackupErr)⟩,
                res.2)

/-- A cycle environment in which every external call succeeds (used to
    instantiate theorems at a concrete input). -/
def envAllOk : OrchestratorEnv :=
  { validate := .ok true,
    selectTheme := .ok themeB,
    weather := .error "unused",
    getThemeWithPrompt := fun _ _ => .ok "PROMPT",
    generatePost := fun _ _ => .ok ⟨"Ein Abend in der Bar", "\x7b\x7d"⟩,
    genImage := fun _ _ => .ok 1,
    saveTemp := fun f => .ok ("/tmp/" ++ f),
    postIG := fun _ _ => .ok true,
    saveSuccessOk := true, saveSuccessErr := "",
    saveFailedOk := true,
    refPick := 0, now := 0,
    successId := "id-success", failId := "id-fail",
    backupPost := .ok "Backup text",
    saveBackupOk := true, saveBackupErr := "",
    backupId := "id-backup" }

/-- Primary cycle fails at validation; the backup pipeline succeeds up to the
    publish call, which returns false without throwing. -/
def envBackupPublishFalse : OrchestratorEnv :=
  { envAllOk with validate := .ok false, postIG := fun _ _ => .ok false }

/-- Primary cycle fails at validation; the backup path fully succeeds. -/
def envBackupOk : OrchestratorEnv :=
  { envAllOk with validate := .ok false }

/-! ## Theorems: weather classifier -/

/-- C1: for every input (temperature, sky, wind, precipitation) the weather
    classifier `determineCondition` is a pure deterministic function that
    evaluates the specification's seven ordered rules with first match
    winning; in particular precipitation with temperature 30, clear sky and
    weak wind yields bad because rule 1 fires before rule 4. -/
theorem determineCondition_is_ordered_rule_eval :
    (∀ (t : Int) (s : Sky) (w : Wind) (p : Bool),
        determineCondition t s w p = specCondition ⟨t, s, w, p⟩)
    ∧ determineCondition 30 .sonnig .schwach true = .bad := by
  refine ⟨fun t s w p => ?_, rfl⟩
  cases s <;> cases w <;> cases p <;>
    simp [determineCondition, specCondition, specWeatherRules, firstMatch]

/-! ## Theorems: theme selection -/

theorem walkThemes_eq_walkIdx (ts : List MyRiona.Theme) (r : ℚ) :
    walkThemes ts r = (walkIdx (ts.map Theme.weight) r).bind (fun i => ts[i]?) := by
  induction ts generalizing r with
  | nil => rfl
  | cons t rest ih =>
    simp only [walkThemes, walkIdx, List.map_cons]
    split
    · simp
    · rw [ih]
      cases walkIdx (rest.map Theme.weight) (r - t.weight) <;> simp

theorem walkIdx_eq_some_iff (ws : List ℚ) (hw : ∀ w ∈ ws, 0 ≤ w) (r : ℚ)
    (i : Nat) :
    walkIdx ws r = some i ↔
      i < ws.length ∧ r ≤ ((ws.take (i + 1)).sum) ∧
        (i = 0 ∨ ((ws.take i).sum) < r) := by
  induction ws generalizing r i with
  | nil => simp [walkIdx]
  | cons w tl ih =>
    have hw' : ∀ x ∈ tl, 0 ≤ x := fun x hx => hw x (List.mem_cons_of_mem _ hx)
    have hw0 : 0 ≤ w := hw w (List.mem_cons_self _ _)
    cases i with
    | zero =>
      simp only [walkIdx, List.take_succ_cons, List.take_zero, List.sum_cons,
        List.sum_nil, List.length_cons, add_zero]
      constructor
      · intro h
        split at h
        · rename_i hle
          exact ⟨Nat.succ_pos _, by linarith, by simp⟩
        · simp at h
      · rintro ⟨-, hle, -⟩
        have hle' : r - w ≤ 0 := by linarith
        simp [hle']
    | succ j =>
      simp only [walkIdx, List.take_succ_cons, List.sum_cons, List.length_cons]
      constructor
      · intro h
        split at h
        · simp at h
        · rename_i hgt
          push_neg at hgt
          simp only [Option.map_eq_some'] at h
          obtain ⟨a, ha, haj⟩ := h
          have haj' : a = j := by omega
          subst haj'
          obtain ⟨hlen, hub, hlb⟩ := (ih hw' (r - w) a).1 ha
          have htl : 0 ≤ (tl.take a).sum :=
            List.sum_nonneg (fun x hx => hw' x (List.take_subset _ _ hx))
          refine ⟨by omega, by linarith, Or.inr ?_⟩
          rcases hlb with h0 | hlt
          · subst h0
            simp only [List.take_zero, List.sum_nil, add_zero]
            linarith
          · linarith
      · rintro ⟨hlen, hub, hlb⟩
        rcases hlb with h0 | hlt
        · exact absurd h0 (Nat.succ_ne_zero j)
        · have htl : 0 ≤ (tl.take j).sum :=
            List.sum_nonneg (fun x hx => hw' x (List.take_subset _ _ hx))
          have hgt : ¬ (r - w ≤ 0) := by push_neg; linarith
          rw [if_neg hgt]
          simp only [Option.map_eq_some']
          refine ⟨j, (ih hw' (r - w) j).2 ⟨by omega, by linarith, ?_⟩, rfl⟩
          cases j with
          | zero => exact Or.inl rfl
          | succ k =>
            refine Or.inr ?_
            have htk : 0 ≤ (tl.take (k + 1)).sum :=
              List.sum_nonneg (fun x hx => hw' x (List.take_subset _ _ hx))
            linarith

theorem walkIdx_isSome_of_lt_sum (ws : List ℚ) (r : ℚ) (hne : ws ≠ [])
    (hlt : r < ws.sum) : ∃ i, walkIdx ws r = some i := by
  induction ws generalizing r with
  | nil => exact absurd rfl hne
  | cons w tl ih =>
    by_cases h : r - w ≤ 0
    · exact ⟨0, by simp [walkIdx, h]⟩
    · push_neg at h
      have htlne : tl ≠ [] := by
        intro hnil
        subst hnil
        simp only [List.sum_cons, List.sum_nil, add_zero] at hlt
        linarith
      have : r - w < tl.sum := by
        simp only [List.sum_cons] at hlt
        linarith
      obtain ⟨j, hj⟩ := ih (r - w) htlne this
      exact ⟨j + 1, by simp [walkIdx, not_le.mpr (by linarith : (0:ℚ) < r - w), hj]⟩

theorem walkThemes_mem (ts : List MyRiona.Theme) (r : ℚ) (t : MyRiona.Theme)
    (h : walkThemes ts r = some t) : t ∈ ts := by
  induction ts generalizing r with
  | nil => simp [walkThemes] at h
  | cons hd tl ih =>
    simp only [walkThemes] at h
    split at h
    · cases h
      exact List.mem_cons_self _ _
    · exact List.mem_cons_of_mem _ (ih _ h)

/-- C4 counterexample: with themes A(weight 0) and B(weight 10) the total
    weight is 10 ≠ 0, the draw 0 lies in [0, 10), and yet the weighted walk
    selects A, the theme of weight 0 — refuting "a theme with weight 0 is
    never selected". -/
theorem selectRandomTheme_zero_weight_selected :
    themeA.weight = 0 ∧ totalWeight [themeA, themeB] ≠ 0 ∧
      selectRandomTheme [themeA, themeB] 0 0 = .ok themeA := by
  refine ⟨rfl, by norm_num [totalWeight, themeA, themeB], ?_⟩
  norm_num [selectRandomTheme, totalWeight, themeA, themeB, walkThemes]

/-- C4 (amended): for a non-empty enabled-theme list with non-negative
    weights, if the total weight is 0 the selection is uniform by index, and
    for every draw r with 0 < r < totalWeight the weighted walk stops at the
    unique position i with prefix-sum(i) < r ≤ prefix-sum(i+1) — an interval
    of length weight(i), so each theme is selected with probability
    proportional to its weight — and the selected theme has positive weight
    (a weight-0 theme is never selected at a strictly positive draw; at draw
    exactly 0 the first theme is selected regardless of its weight). -/
theorem selectRandomTheme_weighted_amended (t0 : Theme) (rest : List Theme)
    (r : ℚ) (idx : Nat) (hw : ∀ t ∈ t0 :: rest, 0 ≤ t.weight) :
    (totalWeight (t0 :: rest) = 0 →
        selectRandomTheme (t0 :: rest) r idx = .ok ((t0 :: rest).getD idx t0))
    ∧ (0 < r → r < totalWeight (t0 :: rest) →
        ∃ (i : Nat) (hi : i < (t0 :: rest).length),
          selectRandomTheme (t0 :: rest) r idx = .ok ((t0 :: rest).get ⟨i, hi⟩)
          ∧ walkIdx ((t0 :: rest).map Theme.weight) r = some i
          ∧ (((t0 :: rest).map Theme.weight).take i).sum < r
          ∧ r ≤ (((t0 :: rest).map Theme.weight).take (i + 1)).sum
          ∧ 0 < ((t0 :: rest).get ⟨i, hi⟩).weight) := by
  constructor
  · intro h0
    simp [selectRandomTheme, h0]
  · intro hr hrt
    have hne : totalWeight (t0 :: rest) ≠ 0 := by
      intro h
      rw [h] at hrt
      linarith
    set ws : List ℚ := (t0 :: rest).map Theme.weight with hws
    have hwsne : ws ≠ [] := by simp [hws]
    have hwsnn : ∀ w ∈ ws, 0 ≤ w := by
      intro w hwmem
      rw [hws] at hwmem
      obtain ⟨t, htmem, hteq⟩ := List.mem_map.1 hwmem
      exact hteq ▸ hw t htmem
    have hsum : ws.sum = totalWeight (t0 :: rest) := rfl
    obtain ⟨i, hwalk⟩ := walkIdx_isSome_of_lt_sum ws r hwsne (hsum ▸ hrt)
    obtain ⟨hilen, hub, hlb⟩ := (walkIdx_eq_some_iff ws hwsnn r i).1 hwalk
    have hilen' : i < (t0 :: rest).length := by
      simpa [hws] using hilen
    have hlow : ((ws.take i).sum) < r := by
      rcases hlb with h0 | h
      · subst h0
        simpa using hr
      · exact h
    have hgetw : ws.get ⟨i, hilen⟩ = ((t0 :: rest).get ⟨i, hilen'⟩).weight := by
      simp only [hws, List.get_eq_getElem, List.getElem_map]
    have hwpos : 0 < ((t0 :: rest).get ⟨i, hilen'⟩).weight := by
      have hstep : (ws.take (i + 1)).sum = (ws.take i).sum + ws.get ⟨i, hilen⟩ :=
        List.sum_take_succ ws i hilen
      rw [← hgetw]
      have := hub
      rw [hstep] at this
      linarith
    refine ⟨i, hilen', ?_, hwalk, hlow, hub, hwpos⟩
    have hsel : walkThemes (t0 :: rest) r = some ((t0 :: rest).get ⟨i, hilen'⟩) := by
      rw [walkThemes_eq_walkIdx, ← hws, hwalk]
      simp [List.getElem?_eq_getElem hilen']
    simp [selectRandomTheme, hne, hsel]

/-- C4 amended witness: with the single theme B (weight 10) and draw 5,
    the weighted selection returns B. -/
theorem selectRandomTheme_weighted_amended_witness :
    selectRandomTheme [themeB] 5 0 = .ok themeB := by
  obtain ⟨-, h2⟩ := selectRandomTheme_weighted_amended themeB [] 5 0
    (by
      intro t ht
      simp only [List.mem_singleton] at ht
      subst ht
      norm_num [themeB])
  obtain ⟨i, hi, hsel, -, -, -, -⟩ :=
    h2 (by norm_num) (by norm_num [totalWeight, themeB])
  have hi0 : i = 0 := by
    simp only [List.length_singleton] at hi
    omega
  subst hi0
  simpa using hsel

/-- C10: `selectRandomTheme` fails with "No enabled themes available" exactly
    when the enabled-theme list is empty; for every non-empty list it returns
    a member of the list, and when the weighted walk falls through without
    selecting (total weight non-zero) the first theme is returned. -/
theorem selectRandomTheme_error_iff_no_enabled :
    ∀ (themes : List Theme) (r : ℚ) (idx : Nat),
      (selectRandomTheme themes r idx = .error "No enabled themes available"
          ↔ themes = [])
      ∧ (∀ t, selectRandomTheme themes r idx = .ok t → t ∈ themes)
      ∧ (∀ t0 rest, themes = t0 :: rest → totalWeight themes ≠ 0 →
          walkThemes themes r = none →
          selectRandomTheme themes r idx = .ok t0) := by
  intro themes r idx
  refine ⟨?_, ?_, ?_⟩
  · cases themes with
    | nil => simp [selectRandomTheme]
    | cons t0 rest =>
      simp only [selectRandomTheme]
      constructor
      · intro h
        split at h
        · simp at h
        · split at h <;> simp_all
      · intro h
        simp at h
  · intro t h
    cases themes with
    | nil => simp [selectRandomTheme] at h
    | cons t0 rest =>
      simp only [selectRandomTheme] at h
      split at h
      · have := Except.ok.inj h
        subst this
        rcases hx : (t0 :: rest)[idx]? with - | x
        · simp [List.getD_eq_getElem?_getD, hx]
        · rw [List.getD_eq_getElem?_getD, hx]
          exact List.getElem?_mem hx
      · split at h
        · rename_i t' hwalk
          have := Except.ok.inj h
          subst this
          exact walkThemes_mem _ _ _ hwalk
        · have := Except.ok.inj h
          subst this
          exact List.mem_cons_self _ _
  · intro t0 rest heq hne hwalk
    subst heq
    simp [selectRandomTheme, hne, hwalk]

/-- C10 witness: applied at the one-theme list [B], draw 0, index 0: the
    hypothesis that selection returned B is discharged by evaluation, and the
    theorem yields that B is a member of the enabled list. -/
theorem selectRandomTheme_error_iff_no_enabled_witness :
    themeB ∈ [themeB] :=
  (selectRandomTheme_error_iff_no_enabled [themeB] 0 0).2.1 themeB
    (by norm_num [selectRandomTheme, totalWeight, themeB, walkThemes])

/-! ## Theorems: image synthesis retry -/

theorem generateImage_unfold (prompt : String) (res : Nat → Except String Img) :
    generateImage prompt res =
      match res 1 with
      | .ok img => (.ok img, [])
      | .error e1 =>
        match res 2 with
        | .ok img => (.ok img, [⟨msgOr e1, 1, prompt.take 200⟩])
        | .error e2 =>
          match res 3 with
          | .ok img => (.ok img,
              [⟨msgOr e1, 1, prompt.take 200⟩, ⟨msgOr e2, 2, prompt.take 200⟩])
          | .error e3 =>
            (.error ("Image generation failed after " ++ toString MAX_RETRIES ++
                " attempts: " ++ e3),
             [⟨msgOr e1, 1, prompt.take 200⟩, ⟨msgOr e2, 2, prompt.take 200⟩,
              ⟨msgOr e3, 3, prompt.take 200⟩]) := by
  have hr : List.range' 1 MAX_RETRIES = [1, 2, 3] := rfl
  rcases h1 : res 1 with e1 | i1 <;> rcases h2 : res 2 with e2 | i2 <;>
    rcases h3 : res 3 with e3 | i3 <;>
    simp [generateImage, hr, generateImageGo, h1, h2, h3, MAX_RETRIES]

/-- C3: image synthesis makes at most MAX_RETRIES = 3 total attempts; when
    every attempt fails it raises after exactly 3 attempts with a message
    embedding the last underlying failure text, each failed attempt logging
    an ErrorLog entry with its attempt number (1, 2, 3) and the prompt
    truncated to 200 characters; when an attempt succeeds the bytes are
    returned and exactly the earlier failures are logged; outcomes of calls
    beyond the third are never consulted. -/
theorem generateImage_retry_policy (prompt : String)
    (res : Nat → Except String Img) :
    (generateImage prompt res =
      match res 1 with
      | .ok img => (.ok img, [])
      | .error e1 =>
        match res 2 with
        | .ok img => (.ok img, [⟨msgOr e1, 1, prompt.take 200⟩])
        | .error e2 =>
          match res 3 with
          | .ok img => (.ok img,
              [⟨msgOr e1, 1, prompt.take 200⟩, ⟨msgOr e2, 2, prompt.take 200⟩])
          | .error e3 =>
            (.error ("Image generation failed after " ++ toString MAX_RETRIES ++
                " attempts: " ++ e3),
             [⟨msgOr e1, 1, prompt.take 200⟩, ⟨msgOr e2, 2, prompt.take 200⟩,
              ⟨msgOr e3, 3, prompt.take 200⟩]))
    ∧ (∀ res' : Nat → Except String Img,
        (∀ k, 1 ≤ k → k ≤ MAX_RETRIES → res k = res' k) →
        generateImage prompt res = generateImage prompt res')
    ∧ generateImage "p" (fun _ => .error "boom") =
        (.error "Image generation failed after 3 attempts: boom",
         [⟨"boom", 1, "p"⟩, ⟨"boom", 2, "p"⟩, ⟨"boom", 3, "p"⟩]) := by
  set_option maxRecDepth 4000 in
  refine ⟨generateImage_unfold prompt res, ?_, ?_⟩
  · intro res' h
    rw [generateImage_unfold prompt res, generateImage_unfold prompt res',
      h 1 (by omega) (by decide), h 2 (by omega) (by decide),
      h 3 (by omega) (by decide)]
  · rfl

/-- C3 witness: a stream failing on every call and one that differs only
    from the fourth call on produce the same outcome — only the first three
    attempt outcomes matter, and exhaustion yields the 3-attempt error. -/
theorem generateImage_retry_policy_witness :
    generateImage "p" (fun _ => .error "x") =
      generateImage "p" (fun k => if k = 4 then .ok 7 else .error "x") :=
  (generateImage_retry_policy "p" (fun _ => .error "x")).2.1
    (fun k => if k = 4 then .ok 7 else .error "x")
    (fun k _ hk2 => by
      have hk4 : k ≠ 4 := by
        have : MAX_RETRIES = 3 := rfl
        omega
      simp [hk4])

/-! ## Theorems: caption generation retry and degradation -/

/-- C6 counterexample: with a single credential and every upstream call
    rate-limited, `generatePostText` has consumed 5 upstream responses and is
    still re-invoking itself — more than the single retry the claim allows —
    and no hard failure has been raised; rotation over a one-key pool returns
    the same key. -/
theorem generatePostText_unbounded_retry :
    generatePostText (fun _ => .error "429 Too Many Requests") 1 5 0 =
      .retrying 5
    ∧ rotateApiKey 1 0 = 0 := by
  constructor
  · rfl
  · rfl

/-- C6 (amended): on a 429 the caption generator rotates the key index and
    re-invokes itself with no bound: under persistently rate-limited
    responses it is still retrying after consuming any amount of fuel (never
    a hard failure, never a success), a success returns immediately, a
    non-429 error is thrown immediately, and a 429 recurses after rotating. -/
theorem generatePostText_rate_limit_behaviour :
    (∀ (resp : Nat → Except String PostTextData) (nKeys fuel i k : Nat),
        (∀ j, ∃ e, resp j = .error e ∧ hasSubstr e "429" = true) →
        generatePostTextGo resp nKeys fuel i k = .retrying (i + fuel))
    ∧ (∀ (resp : Nat → Except String PostTextData) (nKeys fuel i k : Nat) d,
        resp i = .ok d →
        generatePostTextGo resp nKeys (fuel + 1) i k = .done d (i + 1))
    ∧ (∀ (resp : Nat → Except String PostTextData) (nKeys fuel i k : Nat) e,
        resp i = .error e → hasSubstr e "429" = false →
        generatePostTextGo resp nKeys (fuel + 1) i k = .thrown e (i + 1))
    ∧ (∀ (resp : Nat → Except String PostTextData) (nKeys fuel i k : Nat) e,
        resp i = .error e → hasSubstr e "429" = true →
        generatePostTextGo resp nKeys (fuel + 1) i k =
          generatePostTextGo resp nKeys fuel (i + 1) (rotateApiKey nKeys k)) := by
  refine ⟨?_, ?_, ?_, ?_⟩
  · intro resp nKeys fuel
    induction fuel with
    | zero => intro i k _; simp [generatePostTextGo]
    | succ n ih =>
      intro i k h
      obtain ⟨e, he, h429⟩ := h i
      have := ih (i + 1) (rotateApiKey nKeys k) h
      simp [generatePostTextGo, he, h429, this]
      omega
  · intro resp nKeys fuel i k d h
    simp [generatePostTextGo, h]
  · intro resp nKeys fuel i k e h h429
    simp [generatePostTextGo, h, h429]
  · intro resp nKeys fuel i k e h h429
    simp [generatePostTextGo, h, h429]

/-- C6 amended witness: the perpetually-rate-limited stream over a one-key
    pool is still retrying after 7 consumed responses. -/
theorem generatePostText_rate_limit_behaviour_witness :
    generatePostTextGo (fun _ => .error "429") 1 7 0 0 = .retrying (0 + 7) :=
  generatePostText_rate_limit_behaviour.1 (fun _ => .error "429") 1 7 0 0
    (fun _ => ⟨"429", rfl, by decide⟩)

/-- C7: a non-rate-limit error (such as a parse failure) is re-thrown by
    `generatePostText` (hard failure), whereas `checkSimilarity` degrades it
    to the empty-constraints result with the locally synthesized
    recommendation, and `checkSimilarityGo` can never throw at all. -/
theorem parse_failure_hard_vs_similarity_degraded :
    (∀ (respT : Nat → Except String PostTextData) (nKeys fuel k : Nat)
        (e : String),
        respT 0 = .error e → hasSubstr e "429" = false →
        generatePostText respT nKeys (fuel + 1) k = .thrown e 1)
    ∧ (∀ (respS : Nat → Except String SimilarityCheck) (nKeys fuel k : Nat)
        (lastPosts : List String) (e : String),
        lastPosts.length ≠ 0 →
        respS 0 = .error e → hasSubstr e "429" = false →
        checkSimilarity lastPosts respS nKeys (fuel + 1) k =
          .done analysisFailedSim 1)
    ∧ (∀ (respS : Nat → Except String SimilarityCheck) (nKeys fuel i k : Nat)
        (m : String) (c : Nat),
        checkSimilarityGo respS nKeys fuel i k ≠ .thrown m c) := by
  refine ⟨?_, ?_, ?_⟩
  · intro respT nKeys fuel k e h h429
    simp [generatePostText, generatePostTextGo, h, h429]
  · intro respS nKeys fuel k lastPosts e hne h h429
    simp [checkSimilarity, hne, checkSimilarityGo, h, h429]
  · intro respS nKeys fuel
    induction fuel with
    | zero => intro i k m c; simp [checkSimilarityGo]
    | succ n ih =>
      intro i k m c
      rcases h : respS i with e | d
      · by_cases h429 : hasSubstr e "429" = true
        · simp [checkSimilarityGo, h, h429]
          exact ih (i + 1) (rotateApiKey nKeys k) m c
        · simp at h429
          simp [checkSimilarityGo, h, h429]
      · simp [checkSimilarityGo, h]

/-- C7 witness: a concrete JSON-parse error is thrown by the caption
    generator but degraded by the similarity check on a one-post history. -/
theorem parse_failure_hard_vs_similarity_degraded_witness :
    generatePostText (fun _ => .error "Unexpected token o in JSON") 1 1 0 =
      .thrown "Unexpected token o in JSON" 1
    ∧ checkSimilarity ["ein Post"] (fun _ => .error "Unexpected token o in JSON")
        1 1 0 = .done analysisFailedSim 1 :=
  ⟨parse_failure_hard_vs_similarity_degraded.1 _ 1 0 0 _ rfl (by decide),
   parse_failure_hard_vs_similarity_degraded.2.1 _ 1 0 0 ["ein Post"] _
     (by decide) rfl (by decide)⟩

/-- C9: a thrown history query is swallowed by `getLastPosts`, which returns
    the empty list, and the similarity step on that empty history returns the
    locally synthesized "be creative" recommendation after zero upstream
    calls — so a history-read failure can never fail caption generation. -/
theorem getLastPosts_error_swallowed :
    ∀ (e : String) (respS : Nat → Except String SimilarityCheck)
      (nKeys fuel k : Nat),
      getLastPosts (.error e) = []
      ∧ checkSimilarity (getLastPosts (.error e)) respS nKeys fuel k =
          .done emptyHistorySim 0 := by
  intro e respS nKeys fuel k
  exact ⟨rfl, rfl⟩

/-! ## Theorems: weather fetch -/

/-- C8 counterexample: a 429 response from the weather source is not
    retried and triggers no credential rotation: exactly one fetch happens
    and the generic classified error is thrown immediately — refuting
    "credential rotation followed by exactly one retry of the whole fetch". -/
theorem getCurrentWeather_429_not_retried :
    getCurrentWeather (some "key")
        (.fail (some 429) "Request failed with status code 429") =
      (.error "Failed to fetch weather data: Request failed with status code 429",
        1) := by
  rfl

/-- C8 (amended): a missing/empty API key throws before any fetch; with a
    key, exactly one fetch is performed and its failure propagates as a
    classified error (401 → invalid-key message, every other failure —
    including a 429 — → the wrapped generic message) and is never replaced
    by a default observation; a successful fetch yields the observation
    classified by `determineCondition` over the mapped vocabulary. -/
theorem getCurrentWeather_error_propagation (apiKey : Option String)
    (f : FetchOutcome) :
    (apiKey.getD "" = "" →
        getCurrentWeather apiKey f =
          (.error "WEATHERAPI_KEY not set in environment variables", 0))
    ∧ (apiKey.getD "" ≠ "" →
        (getCurrentWeather apiKey f).2 = 1
        ∧ (∀ raw, f = .ok raw →
            ∃ wd, getCurrentWeather apiKey f = (.ok wd, 1)
              ∧ wd.temperature = round raw.temp_c
              ∧ wd.sky = mapConditionToSky raw.conditionCode raw.conditionText
              ∧ wd.wind = mapWindSpeed raw.wind_kph
              ∧ wd.precipitation =
                  (decide (raw.precip_mm > 0) || (wd.sky == .regnerisch))
              ∧ wd.condition =
                  determineCondition wd.temperature wd.sky wd.wind
                    wd.precipitation)
        ∧ (∀ s m, f = .fail s m →
            getCurrentWeather apiKey f =
              (.error (if s = some 401 then "Invalid WeatherAPI.com API key"
                else "Failed to fetch weather data: " ++ m), 1))) := by
  constructor
  · intro hk
    simp [getCurrentWeather, hk]
  · intro hk
    refine ⟨?_, ?_, ?_⟩
    · rcases f with raw | ⟨s, m⟩
      · simp [getCurrentWeather, hk]
      · simp [getCurrentWeather, hk]
        split <;> rfl
    · intro raw hf
      subst hf
      refine ⟨observationOfRaw raw, ?_, rfl, rfl, rfl, rfl, rfl⟩
      simp [getCurrentWeather, hk]
    · intro s m hf
      subst hf
      by_cases h401 : s = some 401 <;> simp [getCurrentWeather, hk, h401]

/-- C8 amended witness: at a concrete key and a sunny 21.5 °C body, the
    fetch count is 1 and the observation exists with the classified fields. -/
theorem getCurrentWeather_error_propagation_witness :
    ∃ wd, getCurrentWeather (some "key")
        (.ok ⟨43 / 2, "Sonnig", 1000, 10, 0⟩) = (.ok wd, 1)
      ∧ wd.temperature = round ((43 : ℚ) / 2)
      ∧ wd.sky = mapConditionToSky 1000 "Sonnig"
      ∧ wd.wind = mapWindSpeed 10
      ∧ wd.precipitation = (decide ((0 : ℚ) > 0) || (wd.sky == .regnerisch))
      ∧ wd.condition =
          determineCondition wd.temperature wd.sky wd.wind wd.precipitation :=
  ((getCurrentWeather_error_propagation (some "key")
      (.ok ⟨43 / 2, "Sonnig", 1000, 10, 0⟩)).2 (by decide)).2.1
    ⟨43 / 2, "Sonnig", 1000, 10, 0⟩ rfl

/-! ## Theorems: posting orchestrator -/

theorem msgOr_ne_empty (s : String) : msgOr s ≠ "" := by
  unfold msgOr
  split
  · decide
  · assumption

theorem runMain_saveFailedOk_irrel (env : OrchestratorEnv) (b : Bool) :
    runMain { env with saveFailedOk := b } = runMain env := rfl

/-- C2: every cycle of `executePost` persists exactly one Post record — on
    success one record with status success whose id the returned postId
    references, on any thrown failure a `{success := false, error}` result
    with a non-empty error together with exactly one record with status
    failed and a non-empty errorMessage, unless the failure-record save
    itself fails, in which case nothing is persisted; and the returned
    result never depends on whether that best-effort save succeeded. -/
theorem executePost_one_record (env : OrchestratorEnv) :
    ((executePost env).1.success = true →
        ∃ r, (executePost env).2 = [r] ∧ r.status = .success
          ∧ (executePost env).1.postId = some r.id)
    ∧ ((executePost env).1.success = false →
        ∃ e, (executePost env).1.error = some e ∧ e ≠ ""
          ∧ (env.saveFailedOk = true →
              ∃ r, (executePost env).2 = [r] ∧ r.status = .failed
                ∧ ∃ m, r.errorMessage = some m ∧ m ≠ "")
          ∧ (env.saveFailedOk = false → (executePost env).2 = []))
    ∧ (∀ b, (executePost { env with saveFailedOk := b }).1 = (executePost env).1) := by
  refine ⟨?_, ?_, ?_⟩
  · intro hs
    rcases hm : runMain env with ⟨e, sel, ptext⟩ | d
    · exfalso
      simp [executePost, hm, mkFailure] at hs
    · by_cases hss : env.saveSuccessOk
      · exact ⟨successRecord env d, by simp [executePost, hm, hss], rfl,
          by simp [executePost, hm, hss, successRecord]⟩
      · exfalso
        simp [executePost, hm, hss, mkFailure] at hs
  · intro hs
    rcases hm : runMain env with ⟨e, sel, ptext⟩ | d
    · refine ⟨msgOr e, by simp [executePost, hm, mkFailure], msgOr_ne_empty e,
        ?_, ?_⟩
      · intro hsf
        have hx : executePost env = mkFailure env sel ptext e := by
          simp [executePost, hm]
        rw [hx]
        simp only [mkFailure, hsf, if_true]
        exact ⟨_, rfl, rfl, msgOr e, rfl, msgOr_ne_empty e⟩
      · intro hsf
        simp [executePost, hm, mkFailure, hsf]
    · by_cases hss : env.saveSuccessOk
      · exfalso
        simp [executePost, hm, hss] at hs
      · refine ⟨msgOr env.saveSuccessErr,
          by simp [executePost, hm, hss, mkFailure], msgOr_ne_empty _, ?_, ?_⟩
        · intro hsf
          have hx : executePost env =
              mkFailure env (some d.theme) (some d.postText) env.saveSuccessErr := by
            simp [executePost, hm, hss]
          rw [hx]
          simp only [mkFailure, hsf, if_true]
          exact ⟨_, rfl, rfl, msgOr env.saveSuccessErr, rfl, msgOr_ne_empty _⟩
        · intro hsf
          simp [executePost, hm, hss, mkFailure, hsf]
  · intro b
    unfold executePost
    rw [runMain_saveFailedOk_irrel env b]
    rcases runMain env with ⟨e, sel, ptext⟩ | d
    · simp [mkFailure]
    · by_cases hss : env.saveSuccessOk <;> simp [hss, mkFailure]

/-- C2 witness: in the all-success environment the cycle persists exactly
    the one success record referenced by the returned postId. -/
theorem executePost_one_record_witness :
    ∃ r, (executePost envAllOk).2 = [r] ∧ r.status = .success
      ∧ (executePost envAllOk).1.postId = some r.id :=
  (executePost_one_record envAllOk).1 (by rfl)

/-- C5 counterexample: the primary cycle fails ("Theme configuration
    validation failed"), the backup pipeline is attempted and its publish
    call returns false without throwing — the fallback has failed — yet the
    returned error is exactly the primary error, no backup record exists,
    and the error does not carry the combined "Primary and backup posts
    failed" description the claim requires. -/
theorem executePostWithFallback_publish_false :
    (executePostWithFallback envBackupPublishFalse).1 =
      ⟨false, none, some "Theme configuration validation failed"⟩
    ∧ ((executePostWithFallback envBackupPublishFalse).2.map PostRecord.themeId)
        = ["unknown"]
    ∧ hasSubstr "Theme configuration validation failed"
        "Primary and backup posts failed: " = false := by
  refine ⟨rfl, rfl, by decide⟩

/-- C5 (amended): `executePostWithFallback` attempts the fallback exactly
    once and only when the primary cycle failed; on backup success it
    returns `{success := true, postId := backup id}` and appends the one
    backup Post (themeId "backup", the drawn static caption, the fixed
    generic image prompt, generated with no reference image); a thrown
    backup failure yields `{success := false}` with the error
    "Primary and backup posts failed: <backup message>" (the primary error
    message itself is not embedded), no further retry; and a backup publish
    call that returns false without throwing falls through to returning the
    primary failure result unchanged. -/
theorem executePostWithFallback_amended (env : OrchestratorEnv) :
    ((executePost env).1.success = true →
        executePostWithFallback env = executePost env)
    ∧ ((executePost env).1.success = false →
        (∀ btext img ipath,
          env.backupPost = .ok btext →
          env.genImage backupImagePrompt .noRef = .ok img →
          env.saveTemp "backup-post.jpg" = .ok ipath →
          env.postIG ipath btext = .ok true →
          env.saveBackupOk = true →
          executePostWithFallback env =
            (⟨true, some env.backupId, none⟩,
              (executePost env).2 ++ [backupRecord env btext ipath]))
        ∧ (∀ e, env.backupPost = .error e →
            executePostWithFallback env =
              (⟨false, none, some ("Primary and backup posts failed: " ++ e)⟩,
                (executePost env).2))
        ∧ (∀ btext e,
            env.backupPost = .ok btext →
            env.genImage backupImagePrompt .noRef = .error e →
            executePostWithFallback env =
              (⟨false, none, some ("Primary and backup posts failed: " ++ e)⟩,
                (executePost env).2))
        ∧ (∀ btext img ipath e,
            env.backupPost = .ok btext →
            env.genImage backupImagePrompt .noRef = .ok img →
            env.saveTemp "backup-post.jpg" = .ok ipath →
            env.postIG ipath btext = .error e →
            executePostWithFallback env =
              (⟨false, none, some ("Primary and backup posts failed: " ++ e)⟩,
                (executePost env).2))
        ∧ (∀ btext img ipath,
            env.backupPost = .ok btext →
            env.genImage backupImagePrompt .noRef = .ok img →
            env.saveTemp "backup-post.jpg" = .ok ipath →
            env.postIG ipath btext = .ok false →
            executePostWithFallback env = executePost env)) := by
  constructor
  · intro hs
    simp [executePostWithFallback, hs]
  · intro hs
    refine ⟨?_, ?_, ?_, ?_, ?_⟩
    · intro btext img ipath h1 h2 h3 h4 h5
      simp [executePostWithFallback, hs, h1, h2, h3, h4, h5]
    · intro e h1
      simp [executePostWithFallback, hs, h1]
    · intro btext e h1 h2
      simp [executePostWithFallback, hs, h1, h2]
    · intro btext img ipath e h1 h2 h3 h4
      simp [executePostWithFallback, hs, h1, h2, h3, h4]
    · intro btext img ipath h1 h2 h3 h4
      simp [executePostWithFallback, hs, h1, h2, h3, h4]

/-- C5 amended witness: primary fails at validation, the backup path fully
    succeeds — the result is success with the backup id and the backup
    record is appended after the primary failure record. -/
theorem executePostWithFallback_amended_witness :
    executePostWithFallback envBackupOk =
      (⟨true, some envBackupOk.backupId, none⟩,
        (executePost envBackupOk).2 ++
          [backupRecord envBackupOk "Backup text" "/tmp/backup-post.jpg"]) :=
  ((executePostWithFallback_amended envBackupOk).2 (by rfl)).1
    "Backup text" 1 "/tmp/backup-post.jpg" rfl rfl rfl rfl rfl

end MyRiona
